import Mathlib

/-!
Shallow embedding of the houdini runtime pieces under verification:

* `src/packages/houdini/src/runtime/client/index.ts` — the `HoudiniClient`
  constructor (plugin pipeline assembly) and `observe`.
* `src/packages/houdini-svelte/src/runtime/stores/pagination/fragment.ts` —
  the paginated fragment stores (`BasePaginatedFragmentStore.queryVariables`,
  the cursor stores' `storeHandlers`, and the `get` methods of the
  forward-cursor, backward-cursor and offset variants).

JavaScript records are embedded as association lists of `String × JSValue`
with "later spread wins" merge semantics; thrown errors become `Except`;
the async `queryVariables` method returns a promise value, and — exactly as
in the source — spreading that promise into an object literal contributes no
fields.
-/

set_option autoImplicit false

namespace Houdini

/-! ## Plugins and the `HoudiniClient` constructor
    (src/packages/houdini/src/runtime/client/index.ts) -/

/-- A client plugin.  The distinguished constructors are the plugins the
constructor in `client/index.ts` itself inserts (`inputsPlugin`,
`fetchParamsPlugin(fetchParams)`, `queryPlugin`, `mutationPlugin`,
`fetchPlugin()`); `userPlugin` stands for any other `ClientPlugin` value
(user-supplied middlewares, framework-injected plugins, custom-pipeline
members). -/
inductive ClientPlugin where
  | inputsPlugin
  | fetchParamsPlugin
  | queryPlugin
  | mutationPlugin
  | fetchPlugin
  | userPlugin (tag : String)
deriving DecidableEq, Repr

/-- The `ConstructorArgs` record of `client/index.ts`.  `fetchParams` keeps
only the presence of the function (a non-null function is truthy);
`pipeline`, when present, is the plugin list that calling the supplied
thunk (`pipeline?.()`) would return. -/
structure ConstructorArgs where
  url : String
  fetchParams : Option Unit
  plugins : Option (List ClientPlugin)
  pipeline : Option (List ClientPlugin)

/-- The state of a successfully constructed `HoudiniClient`: its `url` and
the private assembled plugin list `#plugins`. -/
structure HoudiniClient where
  url : String
  plugins : List ClientPlugin
deriving DecidableEq, Repr

/-- The `HoudiniClient` constructor body (lines 43–74 of
`client/index.ts`): throw when both `plugins` and `pipeline` are given,
otherwise assemble `#plugins` as
`[inputsPlugin].concat(fetchParams ? [fetchParamsPlugin(fetchParams)] : [],
pipeline?.() ?? [queryPlugin, mutationPlugin].concat(plugins ?? [],
pluginsFromPlugins, fetchPlugin()))`.  The injected plugins
(`pluginsFromPlugins`, from a module outside the inspected sources) are a
parameter. -/
def HoudiniClient.construct (pluginsFromPlugins : List ClientPlugin)
    (args : ConstructorArgs) : Except String HoudiniClient :=
  if args.plugins.isSome && args.pipeline.isSome then
    .error "A client cannot be given a pipeline and a list of plugins at the same time."
  else
    .ok
      { url := args.url
        plugins :=
          [ClientPlugin.inputsPlugin] ++
            (match args.fetchParams with
              | some _ => [ClientPlugin.fetchParamsPlugin]
              | none => []) ++
            (match args.pipeline with
              | some customPipeline => customPipeline
              | none =>
                  [ClientPlugin.queryPlugin, ClientPlugin.mutationPlugin] ++
                    args.plugins.getD [] ++ pluginsFromPlugins ++
                    [ClientPlugin.fetchPlugin]) }

/-! ## JavaScript values and record operations -/

/-- A JavaScript value, as far as the embedded code inspects one.  Records
are association lists (insertion-ordered, no duplicate keys when built by
`mergeRec`). -/
inductive JSValue where
  | str (s : String)
  | num (n : Int)
  | boolean (b : Bool)
  | null
  | undefined
  | obj (fields : List (String × JSValue))
deriving Repr, BEq

/-- Property read `value[key]`: the field's value off a record (`undefined`
when the key is absent), a thrown `TypeError` when the receiver is `null`
or `undefined` — reachable in `queryVariables`, whose receiver is
`get(store).data` and the observer is created with `initialValue ?? null`
— and `undefined` for the other primitive receivers (JS boxes them). -/
def jsGet (value : JSValue) (key : String) : Except String JSValue :=
  match value with
  | .obj fields => .ok ((fields.lookup key).getD .undefined)
  | .null => .error ("TypeError: Cannot read properties of null (reading " ++ key ++ ")")
  | .undefined =>
      .error ("TypeError: Cannot read properties of undefined (reading " ++ key ++ ")")
  | _ => .ok .undefined

/-- The key-field reads
`Object.fromEntries(keys.map((key) => [key, value[key]]))`: each
`value[key]` is evaluated left to right and the first thrown `TypeError`
aborts the whole expression. -/
def readKeyFields (value : JSValue) : List String → Except String (List (String × JSValue))
  | [] => .ok []
  | key :: rest =>
      match jsGet value key with
      | .error e => .error e
      | .ok v =>
          match readKeyFields value rest with
          | .error e => .error e
          | .ok tail => .ok ((key, v) :: tail)

/-- Object-spread merge `{...a, ...b}`: keys of `a` in order, with `b`'s
value winning on a shared key, then `b`'s new keys appended in order. -/
def recSet (fields : List (String × JSValue)) (kv : String × JSValue) :
    List (String × JSValue) :=
  if fields.any (fun p => p.1 = kv.1) then
    fields.map (fun p => if p.1 = kv.1 then kv else p)
  else
    fields ++ [kv]

/-- Fold `recSet` over the second record: the embedding of `{...a, ...b}`. -/
def mergeRec (a b : List (String × JSValue)) : List (String × JSValue) :=
  b.foldl recSet a

/-! ## Type configuration and `queryVariables`
    (src/packages/houdini-svelte/src/runtime/stores/pagination/fragment.ts,
    lines 38–68) -/

/-- One entry of the global type configuration: `{ keys: string[],
resolve?: { arguments?: (value) => Record<string, unknown> } }`.
`resolveArguments` is `typeConfig.resolve?.arguments`; the resolver returns
a record, or `none` for a falsy return (the source guards with `|| {}`). -/
structure TypeConfig where
  keys : List String
  resolveArguments : Option (JSValue → Option (List (String × JSValue)))

/-- The slice of the global config the pagination code reads:
`config.types`, a mapping from type name to `TypeConfig`. -/
structure Config where
  types : List (String × TypeConfig)

/-- The `refetch` metadata of a pagination artifact, as far as
`fragment.ts` reads it (only `targetType`; mode and direction are consumed
by the cursor/offset handler modules, which are outside the inspected
sources). -/
structure RefetchSpec where
  targetType : String

/-- A pagination `QueryArtifact`, as far as `fragment.ts` reads it. -/
structure QueryArtifact where
  refetch : Option RefetchSpec

/-- The destructuring `const { targetType } = this.paginationArtifact.refetch || {}` followed
by the `targetType || ''` defaulting used at both lookup sites. -/
def targetTypeOf (artifact : QueryArtifact) : String :=
  ((artifact.refetch.map RefetchSpec.targetType).getD "")

/-- Modelled from the spec: the documentation site URL (`siteURL` comes
from a constants module that is not among the inspected sources); only its
presence in the diagnostic matters. -/
def siteURL : String := "https://houdinigraphql.com"

/-- Modelled from the spec: `keyFieldsForType` (from the config module,
not among the inspected sources) returns "the configured key fields for
that type" — the `keys` entry of the type's configuration. -/
def keyFieldsForType (config : Config) (type : String) : List String :=
  ((config.types.lookup type).map TypeConfig.keys).getD []

/-- The eventual result of the async method
`BasePaginatedFragmentStore.queryVariables` (`fragment.ts` lines 38–68):
look up the type configuration for the artifact's declared target type,
throwing a diagnostic when it is missing; then either apply the custom
argument resolver to the current cached value (`get(store).data`), or read
each configured key field off the cached value — reads which throw a
`TypeError` when that value is `null` or `undefined`. -/
def queryVariables (config : Config) (artifact : QueryArtifact)
    (storeData : JSValue) : Except String (List (String × JSValue)) :=
  let targetType := targetTypeOf artifact
  match config.types.lookup targetType with
  | none =>
      .error ("Missing type refetch configuration for " ++ targetType ++
        ". For more information, see " ++ siteURL ++
        "/guides/pagination#paginated-fragments")
  | some typeConfig =>
      match typeConfig.resolveArguments with
      | some resolver => .ok ((resolver storeData).getD [])
      | none => readKeyFields storeData (keyFieldsForType config targetType)

/-! ## The `send` arguments built by the fetch / fetchUpdate closures
    (`fragment.ts` lines 119–148 and 209–234) -/

/-- The `cacheParams` record passed to `observer.send`. -/
structure CacheParams where
  applyUpdates : Bool
deriving DecidableEq, Repr

/-- The arguments the fetch/fetchUpdate closures pass to `observer.send`,
as far as the claims inspect them: the `variables` record and the optional
`cacheParams` record.  (The `...args` spread also forwards fields such as
`session`, which the embedded closures neither read nor change.) -/
structure SendParams where
  vars : List (String × JSValue)
  cacheParams : Option CacheParams
deriving Repr

/-- The method `queryVariables` is `async`: calling it yields a promise.  In
all four closures the source spreads that promise straight into the
`variables` object literal — `{...args?.variables,
...this.queryVariables(observer)}` — without awaiting it.  A JS object
spread copies only the spread operand's own enumerable properties, and a
promise object has none, so the spread contributes no fields regardless of
how the promise settles. -/
def spreadOfPromise (_pending : Except String (List (String × JSValue))) :
    List (String × JSValue) := []

/-- The `variables` record all four closures build:
`{...args?.variables, ...this.queryVariables(observer)}`. -/
def closureVariables (config : Config) (artifact : QueryArtifact)
    (storeData : JSValue) (argVariables : List (String × JSValue)) :
    List (String × JSValue) :=
  mergeRec argVariables (spreadOfPromise (queryVariables config artifact storeData))

/-- The `send` arguments built by the cursor stores' `fetchUpdate` closure
(`fragment.ts` lines 124–135): the merged variables plus
`cacheParams: { applyUpdates: true }`. -/
def cursorFetchUpdateSend (config : Config) (artifact : QueryArtifact)
    (storeData : JSValue) (argVariables : List (String × JSValue)) : SendParams :=
  { vars := closureVariables config artifact storeData argVariables
    cacheParams := some { applyUpdates := true } }

/-- The `send` arguments built by the cursor stores' `fetch` closure
(`fragment.ts` lines 136–144): the merged variables and no `cacheParams`. -/
def cursorFetchSend (config : Config) (artifact : QueryArtifact)
    (storeData : JSValue) (argVariables : List (String × JSValue)) : SendParams :=
  { vars := closureVariables config artifact storeData argVariables
    cacheParams := none }

/-- The `send` arguments built by the offset store's `fetch` closure
(`fragment.ts` lines 211–219): the merged variables and no `cacheParams`. -/
def offsetFetchSend (config : Config) (artifact : QueryArtifact)
    (storeData : JSValue) (argVariables : List (String × JSValue)) : SendParams :=
  { vars := closureVariables config artifact storeData argVariables
    cacheParams := none }

/-- The `send` arguments built by the offset store's `fetchUpdate` closure
(`fragment.ts` lines 220–231): the merged variables plus
`cacheParams: { applyUpdates: true }`. -/
def offsetFetchUpdateSend (config : Config) (artifact : QueryArtifact)
    (storeData : JSValue) (argVariables : List (String × JSValue)) : SendParams :=
  { vars := closureVariables config artifact storeData argVariables
    cacheParams := some { applyUpdates := true } }

/-! ## Observer identity across the `get` methods
    (`fragment.ts` lines 77–117, 156–172, 180–195, 202–243)

`HoudiniClient.observe` (`client/index.ts` lines 76–84) returns
`new DocumentObserver({...})` — a fresh observer instance on every call.
We model observer identity by numbering the instances a `get` call
creates, and record, for each operation of the returned handle, the
observer instance that operation delegates to. -/

/-- Numbering state for `getCurrentClient().observe(...)` calls: each call
hands out the next fresh `DocumentObserver` instance number. -/
structure ObserveState where
  nextId : Nat
deriving DecidableEq, Repr

/-- One `observe` call: a fresh `DocumentObserver` instance. -/
def observeCall (s : ObserveState) : Nat × ObserveState :=
  (s.nextId, { nextId := s.nextId + 1 })

/-- The handle a paginated fragment store's `get` returns, with each
operation mapped to the `DocumentObserver` instance it delegates to.
Modelled from the spec for the parts outside the inspected sources: the
`cursorHandlers` / `offsetHandlers` modules wire `loadNextPage` /
`loadPreviousPage` to the supplied `fetchUpdate` and the plain `fetch` to
the supplied `fetch` — both of which send on the observer passed in — and
derive `pageInfo` from that same observer's pages; a bare
`DocumentObserver` (spread into the offset handle) exposes `subscribe` but
no navigation operations. -/
structure PaginatedHandle where
  subscribeObserver : Nat
  dataObserver : Nat
  fetchObserver : Nat
  pageInfoObserver : Option Nat
  loadNextPageObserver : Option Nat
  loadPreviousPageObserver : Option Nat
deriving DecidableEq, Repr

/-- The base `FragmentStoreCursor.get` (`fragment.ts` lines 77–117): one `observe`
call; `storeHandlers` built over that observer; `subscribe` derives from
the observer's store combined with the handlers' `pageInfo`; `data`,
`fetch` and `pageInfo` all come from the same observer and handlers.  No
navigation operation is attached at this level. -/
def fragmentStoreCursorGet (s : ObserveState) : PaginatedHandle × ObserveState :=
  let (store, s1) := observeCall s
  ({ subscribeObserver := store
     dataObserver := store
     fetchObserver := store
     pageInfoObserver := some store
     loadNextPageObserver := none
     loadPreviousPageObserver := none }, s1)

/-- The subclass `FragmentStoreForwardCursor.get` (`fragment.ts` lines 156–172): take
the base handle (`super.get`, which creates its own observer), then make a
second `observe` call, build fresh handlers over that second observer, and
return the base handle with `loadNextPage` taken from the fresh handlers. -/
def fragmentStoreForwardCursorGet (s : ObserveState) : PaginatedHandle × ObserveState :=
  let (parent, s1) := fragmentStoreCursorGet s
  let (observer, s2) := observeCall s1
  ({ parent with loadNextPageObserver := some observer }, s2)

/-- The subclass `FragmentStoreBackwardCursor.get` (`fragment.ts` lines 180–195): same
as the forward variant, attaching `loadPreviousPage` from handlers built
over a second, fresh observer. -/
def fragmentStoreBackwardCursorGet (s : ObserveState) : PaginatedHandle × ObserveState :=
  let (parent, s1) := fragmentStoreCursorGet s
  let (observer, s2) := observeCall s1
  ({ parent with loadPreviousPageObserver := some observer }, s2)

/-- The subclass `FragmentStoreOffset.get` (`fragment.ts` lines 202–243): one `observe`
call; offset handlers built over that observer; the handle spreads the
observer itself (so `subscribe`/`data` read it directly) and attaches
`fetch` and `loadNextPage` from the handlers.  No `pageInfo` and no
backward operation are exposed. -/
def fragmentStoreOffsetGet (s : ObserveState) : PaginatedHandle × ObserveState :=
  let (observer, s1) := observeCall s
  ({ subscribeObserver := observer
     dataObserver := observer
     fetchObserver := observer
     pageInfoObserver := none
     loadNextPageObserver := some observer
     loadPreviousPageObserver := none }, s1)

/-! ## Concrete fixtures used by witnesses and counterexamples -/

/-- Type configuration for the scenario type `User`: `keys: ["id"]`, no
custom resolver. -/
def userTypeConfig : TypeConfig := { keys := ["id"], resolveArguments := none }

/-- A global config mapping only `User`. -/
def userConfig : Config := { types := [("User", userTypeConfig)] }

/-- A pagination artifact whose `refetch.targetType` is `User`. -/
def userArtifact : QueryArtifact := { refetch := some { targetType := "User" } }

/-- The scenario's cached value `{id: "42"}`. -/
def userValue : JSValue := .obj [("id", .str "42")]

/-- A pagination artifact whose declared target type has no entry in
`userConfig`. -/
def ghostArtifact : QueryArtifact := { refetch := some { targetType := "Ghost" } }

/-- Constructor arguments supplying both a plugin list and a pipeline. -/
def bothArgs : ConstructorArgs :=
  { url := "https://api.test/graphql", fetchParams := none
    plugins := some [.userPlugin "logger"], pipeline := some [.userPlugin "custom"] }

/-- Constructor arguments with neither plugins nor pipeline. -/
def simpleArgs : ConstructorArgs :=
  { url := "https://api.test/graphql", fetchParams := none
    plugins := none, pipeline := none }

/-- Constructor arguments with a fetchParams function and one user plugin. -/
def defaultPipelineArgs : ConstructorArgs :=
  { url := "https://api.test/graphql", fetchParams := some ()
    plugins := some [.userPlugin "logger"], pipeline := none }

/-- Constructor arguments with an explicit custom pipeline. -/
def customPipelineArgs : ConstructorArgs :=
  { url := "https://api.test/graphql", fetchParams := none
    plugins := none, pipeline := some [.userPlugin "custom"] }

/-! ## Claim theorems -/

/-- C1: constructing a `HoudiniClient` with both a non-null `plugins` list
and a non-null `pipeline` function throws the configuration error
synchronously, so no client instance exists (and hence no observer can be
created from that call). -/
theorem construct_with_plugins_and_pipeline_fails (inj : List ClientPlugin)
    (args : ConstructorArgs) (hp : args.plugins.isSome = true)
    (hq : args.pipeline.isSome = true) :
    HoudiniClient.construct inj args =
      .error "A client cannot be given a pipeline and a list of plugins at the same time." := by
  simp [HoudiniClient.construct, hp, hq]

/-- Witness for C1: the error at a concrete construction call. -/
theorem construct_with_plugins_and_pipeline_fails_witness :
    HoudiniClient.construct [] bothArgs =
      .error "A client cannot be given a pipeline and a list of plugins at the same time." :=
  construct_with_plugins_and_pipeline_fails [] bothArgs rfl rfl

/-- C4: every successfully constructed client's assembled plugin list has
the input-coercion plugin as its first element, whatever the injected
plugins and constructor arguments were. -/
theorem assembled_pipeline_head_is_inputs (inj : List ClientPlugin)
    (args : ConstructorArgs) (c : HoudiniClient)
    (h : HoudiniClient.construct inj args = .ok c) :
    c.plugins.head? = some ClientPlugin.inputsPlugin := by
  unfold HoudiniClient.construct at h
  by_cases hb : (args.plugins.isSome && args.pipeline.isSome) = true
  · rw [if_pos hb] at h
    cases h
  · rw [if_neg hb] at h
    cases h
    rfl

/-- Witness for C4: the head of the list assembled for a plain client. -/
theorem assembled_pipeline_head_is_inputs_witness :
    (HoudiniClient.mk "https://api.test/graphql"
        [ClientPlugin.inputsPlugin, ClientPlugin.queryPlugin, ClientPlugin.mutationPlugin,
          ClientPlugin.fetchPlugin]).plugins.head? = some ClientPlugin.inputsPlugin :=
  assembled_pipeline_head_is_inputs [] simpleArgs _ rfl

/-- C5: without an explicit pipeline the assembled list is exactly: the
input-coercion plugin; the fetch-parameter plugin iff `fetchParams` was
supplied; `queryPlugin`; `mutationPlugin`; the user-supplied plugins in
order; the injected plugins; and the fetch plugin last. -/
theorem default_pipeline_assembly (inj : List ClientPlugin)
    (args : ConstructorArgs) (c : HoudiniClient) (hpipe : args.pipeline = none)
    (h : HoudiniClient.construct inj args = .ok c) :
    c.plugins =
      [ClientPlugin.inputsPlugin] ++
        (match args.fetchParams with
          | some _ => [ClientPlugin.fetchParamsPlugin]
          | none => []) ++
        ([ClientPlugin.queryPlugin, ClientPlugin.mutationPlugin] ++
          args.plugins.getD [] ++ inj ++ [ClientPlugin.fetchPlugin]) := by
  unfold HoudiniClient.construct at h
  rw [hpipe] at h
  rw [if_neg (by simp)] at h
  cases h
  rfl

/-- Witness for C5: the exact list assembled for a client with a
fetchParams function, one user plugin and one injected plugin. -/
theorem default_pipeline_assembly_witness :
    (HoudiniClient.mk "https://api.test/graphql"
        [ClientPlugin.inputsPlugin, ClientPlugin.fetchParamsPlugin, ClientPlugin.queryPlugin,
          ClientPlugin.mutationPlugin, ClientPlugin.userPlugin "logger",
          ClientPlugin.userPlugin "injected", ClientPlugin.fetchPlugin]).plugins =
      [ClientPlugin.inputsPlugin] ++
        (match defaultPipelineArgs.fetchParams with
          | some _ => [ClientPlugin.fetchParamsPlugin]
          | none => []) ++
        ([ClientPlugin.queryPlugin, ClientPlugin.mutationPlugin] ++
          defaultPipelineArgs.plugins.getD [] ++ [ClientPlugin.userPlugin "injected"] ++
          [ClientPlugin.fetchPlugin]) :=
  default_pipeline_assembly [ClientPlugin.userPlugin "injected"] defaultPipelineArgs _ rfl rfl

/-- Counterexample for C6: constructing with the custom pipeline
`[userPlugin "custom"]` yields the plugin list
`[inputsPlugin, userPlugin "custom"]`, whose last element is not a fetch
plugin — no network-execution plugin is appended. -/
theorem custom_pipeline_counterexample :
    HoudiniClient.construct [] customPipelineArgs =
      .ok (HoudiniClient.mk "https://api.test/graphql"
        [ClientPlugin.inputsPlugin, ClientPlugin.userPlugin "custom"]) ∧
    [ClientPlugin.inputsPlugin, ClientPlugin.userPlugin "custom"].getLast? ≠
      some ClientPlugin.fetchPlugin := by
  exact ⟨rfl, by decide⟩

/-- C6 (amended): with an explicit custom pipeline the assembled list is
the input-coercion plugin, the fetch-parameter plugin iff `fetchParams`
was supplied, then the custom pipeline verbatim — and nothing else: no
query/mutation/user/injected plugins and no appended network plugin. -/
theorem custom_pipeline_assembly (inj : List ClientPlugin)
    (args : ConstructorArgs) (p : List ClientPlugin) (c : HoudiniClient)
    (hpipe : args.pipeline = some p)
    (h : HoudiniClient.construct inj args = .ok c) :
    c.plugins =
      [ClientPlugin.inputsPlugin] ++
        (match args.fetchParams with
          | some _ => [ClientPlugin.fetchParamsPlugin]
          | none => []) ++ p := by
  unfold HoudiniClient.construct at h
  rw [hpipe] at h
  rcases hargs : args.plugins with _ | l
  · rw [hargs] at h
    rw [if_neg (by simp)] at h
    cases h
    rfl
  · rw [hargs] at h
    rw [if_pos (by simp)] at h
    cases h

/-- Witness for C6 (amended): the exact list assembled for a concrete
custom pipeline. -/
theorem custom_pipeline_assembly_witness :
    (HoudiniClient.mk "https://api.test/graphql"
        [ClientPlugin.inputsPlugin, ClientPlugin.userPlugin "custom"]).plugins =
      [ClientPlugin.inputsPlugin] ++
        (match customPipelineArgs.fetchParams with
          | some _ => [ClientPlugin.fetchParamsPlugin]
          | none => []) ++ [ClientPlugin.userPlugin "custom"] :=
  custom_pipeline_assembly [] customPipelineArgs [ClientPlugin.userPlugin "custom"] _ rfl rfl

/-- C2 (code bug): the cursor `fetchUpdate` closure's `send` receives only
the caller-supplied pagination variables.  `queryVariables` resolves to the
identity variables `{id: "42"}`, yet because the async method's promise is
spread without `await`, the variables passed to `send` are exactly
`{first: 10}` and contain no `id` field. -/
theorem cursor_fetchUpdate_drops_identity_variables :
    queryVariables userConfig userArtifact userValue = .ok [("id", JSValue.str "42")] ∧
    (cursorFetchUpdateSend userConfig userArtifact userValue
        [("first", JSValue.num 10)]).vars = [("first", JSValue.num 10)] ∧
    ((cursorFetchUpdateSend userConfig userArtifact userValue
        [("first", JSValue.num 10)]).vars.lookup "id") = none :=
  ⟨rfl, rfl, rfl⟩

/-- C3 (code bug): with no type-refetch configuration for the artifact's
declared target type, `queryVariables` does reject with the documented
diagnostic, but the offset `fetchUpdate` closure still reaches
`observer.send` — the unawaited promise's rejection neither surfaces to the
caller nor prevents the network request, whose variables are just the
caller-supplied `{limit: 10, offset: 10}`. -/
theorem offset_fetchUpdate_sends_despite_missing_type_config :
    queryVariables userConfig ghostArtifact userValue =
      .error ("Missing type refetch configuration for Ghost. For more information, see " ++
        siteURL ++ "/guides/pagination#paginated-fragments") ∧
    (offsetFetchUpdateSend userConfig ghostArtifact userValue
        [("limit", JSValue.num 10), ("offset", JSValue.num 10)]).vars =
      [("limit", JSValue.num 10), ("offset", JSValue.num 10)] :=
  ⟨rfl, rfl⟩

/-- Reading key fields off a record value never throws: each read yields
the field's value, `undefined` when the key is absent. -/
theorem readKeyFields_obj (fields : List (String × JSValue)) (keys : List String) :
    readKeyFields (.obj fields) keys =
      .ok (keys.map (fun key => (key, (fields.lookup key).getD .undefined))) := by
  induction keys with
  | nil => rfl
  | cons key rest ih => simp [readKeyFields, jsGet, ih]

/-- C7: whenever the target type has a configuration entry and the current
cached value is a record (on a `null` or `undefined` cached value the key
reads throw instead), `queryVariables` resolves to the custom
argument-resolver's record applied to the cached value when one is
declared, and otherwise to the record mapping each configured key field to
its value read off the cached value. -/
theorem queryVariables_resolution (config : Config) (artifact : QueryArtifact)
    (fields : List (String × JSValue)) (tc : TypeConfig)
    (h : config.types.lookup (targetTypeOf artifact) = some tc) :
    queryVariables config artifact (.obj fields) =
      .ok (match tc.resolveArguments with
        | some resolver => (resolver (.obj fields)).getD []
        | none =>
            (keyFieldsForType config (targetTypeOf artifact)).map
              (fun key => (key, (fields.lookup key).getD .undefined))) := by
  unfold queryVariables
  simp only []
  rw [h]
  rcases tc with ⟨keys, ra⟩
  cases ra
  · exact readKeyFields_obj fields _
  · rfl

/-- Witness for C7: the spec scenario — `keys: ["id"]`, cached value
`{id: "42"}`, no custom resolver — resolves to `{id: "42"}`. -/
theorem queryVariables_resolution_witness :
    userConfig.types.lookup (targetTypeOf userArtifact) = some userTypeConfig ∧
    queryVariables userConfig userArtifact (.obj [("id", JSValue.str "42")]) =
      .ok [("id", JSValue.str "42")] :=
  ⟨rfl,
    (queryVariables_resolution userConfig userArtifact [("id", JSValue.str "42")]
        userTypeConfig rfl).trans rfl⟩

/-- C8: both `fetchUpdate` closures (cursor and offset) pass
`cacheParams.applyUpdates = true` to `send`, and both plain `fetch`
closures pass no `cacheParams` at all. -/
theorem fetchUpdate_applies_updates_and_fetch_does_not (config : Config)
    (artifact : QueryArtifact) (storeData : JSValue)
    (argVariables : List (String × JSValue)) :
    (cursorFetchUpdateSend config artifact storeData argVariables).cacheParams =
        some { applyUpdates := true } ∧
    (offsetFetchUpdateSend config artifact storeData argVariables).cacheParams =
        some { applyUpdates := true } ∧
    (cursorFetchSend config artifact storeData argVariables).cacheParams = none ∧
    (offsetFetchSend config artifact storeData argVariables).cacheParams = none :=
  ⟨rfl, rfl, rfl, rfl⟩

/-- C9 (code bug): the forward- and backward-cursor `get` methods hand out
handles whose navigation operation delegates to a second, freshly created
`DocumentObserver` (instance 1), distinct from the observer (instance 0)
that the handle's `subscribe`, `data`, `pageInfo` and `fetch` use; only the
offset handle keeps every operation on one observer. -/
theorem cursor_navigation_delegates_to_second_observer :
    ((fragmentStoreForwardCursorGet { nextId := 0 }).1.loadNextPageObserver = some 1 ∧
      (fragmentStoreForwardCursorGet { nextId := 0 }).1.subscribeObserver = 0) ∧
    ((fragmentStoreBackwardCursorGet { nextId := 0 }).1.loadPreviousPageObserver = some 1 ∧
      (fragmentStoreBackwardCursorGet { nextId := 0 }).1.subscribeObserver = 0) ∧
    ((fragmentStoreOffsetGet { nextId := 0 }).1.loadNextPageObserver = some 0 ∧
      (fragmentStoreOffsetGet { nextId := 0 }).1.subscribeObserver = 0) :=
  ⟨⟨rfl, rfl⟩, ⟨rfl, rfl⟩, ⟨rfl, rfl⟩⟩

/-- C10: navigation capabilities match the variant — a forward-cursor
handle exposes `loadNextPage` and no `loadPreviousPage`, a backward-cursor
handle exposes `loadPreviousPage` and no `loadNextPage`, and an offset
handle exposes `loadNextPage` and no backward operation. -/
theorem navigation_capabilities_by_variant (s : ObserveState) :
    ((fragmentStoreForwardCursorGet s).1.loadNextPageObserver.isSome = true ∧
      (fragmentStoreForwardCursorGet s).1.loadPreviousPageObserver = none) ∧
    ((fragmentStoreBackwardCursorGet s).1.loadPreviousPageObserver.isSome = true ∧
      (fragmentStoreBackwardCursorGet s).1.loadNextPageObserver = none) ∧
    ((fragmentStoreOffsetGet s).1.loadNextPageObserver.isSome = true ∧
      (fragmentStoreOffsetGet s).1.loadPreviousPageObserver = none) :=
  ⟨⟨rfl, rfl⟩, ⟨rfl, rfl⟩, ⟨rfl, rfl⟩⟩

end Houdini
